import Mathlib

/-!
Shallow embedding of the ood_automl run-client frontend
(`src/frontend/run-client/src/App.vue`, `src/frontend/run-client/src/main.js`,
the job-list component and router helpers) for checking the natural-language
specification against the code.

Conventions of the embedding:
* JS values produced by `JSON.parse` are modelled by the inductive `Json`
  (numbers as integers; a parsed JS object has effectively unique keys, so a
  first-match association-list lookup is faithful).
* Property access `v.k` on the JS value `null` throws a TypeError; on other
  non-object values it yields `undefined`.  `Json.attr` returns `Option Json`
  (`none` = `undefined`) and is only used where the receiver is known non-null;
  the null case is modelled explicitly at each access site that can see null.
* JS truthiness is `Json.truthy`.
* The asynchronous waits of `sendStart` are modelled by passing in the
  transport outcome (`CloseWaitEnv`, `OpenWaitEnv`): which event settles the
  pending wait.  Handler side effects of those events (the `onopen`/`onclose`/
  `onerror` handlers installed by `connect`) are applied at the settling point.
* Wall-clock timestamps of log lines and the numeric close code are elided;
  the user-visible text coercion of JS template literals is approximated by
  `jsDisplay` (this rendering detail is not load-bearing for any claim).
-/

/-! ## Definitions: the embedding of the source -/

/-- A parsed JSON value (the result of a successful `JSON.parse`). -/
inductive Json where
  | null : Json
  | bool : Bool → Json
  | num : Int → Json
  | str : String → Json
  | arr : List Json → Json
  | obj : List (String × Json) → Json
deriving Repr

/-- First-match association-list lookup, for object field access. -/
def lookupField : List (String × Json) → String → Option Json
  | [], _ => none
  | (k, v) :: t, k' => if k = k' then some v else lookupField t k'

/-- Property access `v.k` for a non-null receiver: a field of an object, or
`undefined` (modelled as `none`) for a missing field or a primitive receiver.
The throwing `null.k` case is handled explicitly at each site that can see
null. -/
def Json.attr : Json → String → Option Json
  | .obj fs, k => lookupField fs k
  | _, _ => none

/-- JS truthiness of a parsed JSON value. -/
def Json.truthy : Json → Bool
  | .null => false
  | .bool b => b
  | .num n => n != 0
  | .str s => s != ""
  | .arr _ => true
  | .obj _ => true

mutual
/-- Model of `JSON.stringify` on parsed values. -/
def stringify : Json → String
  | .null => "null"
  | .bool true => "true"
  | .bool false => "false"
  | .num n => toString n
  | .str s => "\"" ++ s ++ "\""
  | .arr xs => "[" ++ stringifyArr xs ++ "]"
  | .obj fs => "\x7b" ++ stringifyObj fs ++ "\x7d"

def stringifyArr : List Json → String
  | [] => ""
  | [x] => stringify x
  | x :: y :: t => stringify x ++ "," ++ stringifyArr (y :: t)

def stringifyObj : List (String × Json) → String
  | [] => ""
  | [(k, v)] => "\"" ++ k ++ "\":" ++ stringify v
  | (k, v) :: p :: t => "\"" ++ k ++ "\":" ++ stringify v ++ "," ++ stringifyObj (p :: t)
end

/-- Approximation of the JS string coercion used by template literals. -/
def jsDisplay : Json → String
  | .null => "null"
  | .bool true => "true"
  | .bool false => "false"
  | .num n => toString n
  | .str s => s
  | .arr _ => ""
  | .obj _ => "[object Object]"

/-- `obj.k || dflt` as used in the rendering template literals. -/
def attrDisp (o : Json) (k : String) (dflt : String) : String :=
  match o.attr k with
  | some v => if v.truthy then jsDisplay v else dflt
  | none => dflt

/-- JS strict equality `v === 's'` against a string literal. -/
def Json.isStr : Json → String → Bool
  | .str s', s => s' = s
  | _, _ => false

/-- `o.k === 's'` for a non-null receiver `o`. -/
def attrIsStr (o : Json) (k : String) (s : String) : Bool :=
  match o.attr k with
  | some v => v.isStr s
  | none => false

/-- The readyState of a WebSocket handle. -/
inductive ReadyState where
  | connecting | opened | closing | closed
deriving DecidableEq, Repr

/-- One displayed log line (`appendLine` entry); the wall-clock `ts` is
elided from the model. -/
structure LogLine where
  text : String
  cls : String
deriving Repr

/-- The reactive state of `App.vue`: the socket handle (abstracted to its
readyState), the `connected` flag, the cached run id and the event log. -/
structure AppState where
  ws : Option ReadyState
  connected : Bool
  currentRunId : Option Json
  log : List LogLine
deriving Repr

/-- The state after `onMounted`: no socket, no cached run id, empty log. -/
def initState : AppState :=
  { ws := none, connected := false, currentRunId := none, log := [] }

/-- `appendLine(text, cls)`. -/
def appendLine (st : AppState) (text cls : String) : AppState :=
  { st with log := st.log ++ [⟨text, cls⟩] }

/-- The two `if (obj.run_id) currentRunId.value = obj.run_id` sites of
`appendEvent`. -/
def writeRunId (st : AppState) (o : Json) : AppState :=
  match o.attr "run_id" with
  | some v => if v.truthy then { st with currentRunId := some v } else st
  | none => st

/-- The body of `appendEvent` for a non-null argument (property accesses on a
non-null value never throw). -/
def appendEventNN (st : AppState) (o : Json) : AppState :=
  if attrIsStr o "type" "event" then
    -- const subtype = obj.subtype || obj.type  (obj.type is the string "event" here)
    let subtype : Json :=
      match o.attr "subtype" with
      | some v => if v.truthy then v else .str "event"
      | none => .str "event"
    let st1 :=
      if subtype.isStr "log" then
        appendLine st ("[log] " ++ attrDisp o "logger" "" ++ " " ++ attrDisp o "level" ""
          ++ " — " ++ attrDisp o "msg" "") ""
      else if subtype.isStr "milestone" then
        appendLine st ("[milestone] " ++ attrDisp o "stage" "") "ok"
      else if subtype.isStr "finished" then
        appendLine st ("[finished] artifacts at " ++ attrDisp o "result_path" "(unknown path)") "ok"
      else if subtype.isStr "error" then
        appendLine st ("[error] " ++ attrDisp o "error" "(no detail)") "err"
      else
        appendLine st ("[" ++ jsDisplay subtype ++ "] " ++ stringify o) ""
    writeRunId st1 o
  else if attrIsStr o "type" "error" then
    appendLine st ("[protocol error] " ++ attrDisp o "detail" (stringify o)) "err"
  else
    match o.attr "status" with
    | some v =>
      if v.truthy then
        writeRunId
          (appendLine st ((if v.isStr "success" then "[ok] " else "[fail] ") ++ stringify o)
            (if v.isStr "success" then "ok" else "err"))
          o
      else appendLine st ("[other] " ++ stringify o) ""
    | none => appendLine st ("[other] " ++ stringify o) ""

/-- `appendEvent(obj)`: the first statement reads `obj.type`, which throws a
TypeError when `obj` is the JS value `null`; every later access is on a
non-null value and cannot throw. -/
def appendEvent (st : AppState) (o : Json) : Except Unit AppState :=
  match o with
  | .null => .error ()
  | _ => .ok (appendEventNN st o)

/-- The `ws.onmessage` handler: `JSON.parse` then `appendEvent`, both inside
one `try`; a parse failure (`none` payload) or an exception out of
`appendEvent` lands in the same `catch`, which appends the local
"bad JSON from server" line. -/
def handleMessage (st : AppState) (payload : Option Json) : AppState :=
  match payload with
  | none => appendLine st "bad JSON from server: SyntaxError" "err"
  | some o =>
    match appendEvent st o with
    | .ok st' => st'
    | .error _ => appendLine st "bad JSON from server: TypeError" "err"

/-- Processing a finite inbound message sequence in arrival order. -/
def processAll (st : AppState) (msgs : List (Option Json)) : AppState :=
  msgs.foldl handleMessage st

/-- `clearLog()`. -/
def clearLog (st : AppState) : AppState :=
  { st with log := [] }

/-- The `currentRunId.value ? {..., run_id} : {...}` message construction
shared by `sendStatus` and `sendCancel`. -/
def actionMsg (st : AppState) (action : String) : Json :=
  match st.currentRunId with
  | some v =>
    if v.truthy then .obj [("action_type", .str action), ("run_id", v)]
    else .obj [("action_type", .str action)]
  | none => .obj [("action_type", .str action)]

/-- `sendStatus()`: returns the updated state and the list of messages sent on
the transport (empty when the guard `!ws.value || readyState !== OPEN` fires). -/
def sendStatus (st : AppState) : AppState × List Json :=
  match st.ws with
  | none => (st, [])
  | some rs =>
    if rs = .opened then
      (appendLine st "→ sent status" "", [actionMsg st "status"])
    else (st, [])

/-- `sendCancel()`: same shape as `sendStatus` with action `cancel`. -/
def sendCancel (st : AppState) : AppState × List Json :=
  match st.ws with
  | none => (st, [])
  | some rs =>
    if rs = .opened then
      (appendLine st "→ sent cancel" "", [actionMsg st "cancel"])
    else (st, [])

/-- Observable transport operations, in program order. -/
inductive TraceEv where
  | closeCalled                -- `ws.value.close()` invoked on the old socket
  | closeConfirmed             -- the old socket's close event fired
  | openCalled                 -- `new WebSocket(url)` constructed a transport
  | openConfirmed              -- the new socket's open event fired
  | sentBytes (msg : Json)     -- `ws.value.send(...)`
deriving Repr

/-- Which event settles a pending `waitForClose` on a not-yet-closed socket. -/
inductive CloseWaitEnv where
  | closeArrives | openArrives | errorArrives | timesOut
deriving DecidableEq, Repr

/-- Which event settles a pending `waitForOpen` on a connecting socket. -/
inductive OpenWaitEnv where
  | openArrives | closeArrives | errorArrives | timesOut
deriving DecidableEq, Repr

/-- A rejection value escaping `sendStart` (the reason of an uncaught
promise rejection). -/
inductive JsErr where
  | undefinedReason            -- `reject()` from waitForClose's onOpen
  | eventObject                -- `reject(e)` with the error event
  | withMessage (msg : String) -- `reject(new Error(msg))`
deriving DecidableEq, Repr

/-- `disconnect()`: calls `close()` on the socket when one exists, which moves
a not-yet-closed socket to the closing readyState. -/
def disconnect (st : AppState) : AppState × List TraceEv :=
  match st.ws with
  | none => (st, [])
  | some rs =>
    ({ st with ws := some (if rs = .closed then .closed else .closing) }, [.closeCalled])

/-- `waitForClose(ws.value, 5000)`, together with the side effects of the
handlers installed by `connect` on the old socket when the settling event
fires.  Resolves immediately when no socket exists or the socket is already
closed; otherwise resolves on the close event and rejects on an open event
(`reject()`), an error event (`reject(e)`) or the 5000 ms timeout.  The third
component is the rejection reason, `none` on resolution. -/
def waitForClose (st : AppState) (env : CloseWaitEnv) :
    AppState × List TraceEv × Option JsErr :=
  match st.ws with
  | none => (st, [], none)
  | some rs =>
    if rs = .closed then (st, [], none)
    else
      match env with
      | .closeArrives =>
        -- onclose: setConnected(false); appendLine(...); ws.value = null
        ({ st with
            ws := none
            connected := false
            log := st.log ++ [⟨"WebSocket closed", ""⟩] }, [.closeConfirmed], none)
      | .openArrives =>
        -- onopen: setConnected(true); appendLine('WebSocket connected'); then reject()
        ({ st with
            connected := true
            log := st.log ++ [⟨"WebSocket connected", "ok"⟩] }, [], some .undefinedReason)
      | .errorArrives =>
        -- onerror: appendLine('WebSocket error (see console)'); then reject(e)
        ({ st with log := st.log ++ [⟨"WebSocket error (see console)", "err"⟩] },
         [], some .eventObject)
      | .timesOut => (st, [], some (.withMessage "WebSocket open timeout"))

/-- `connect()`: constructs the new WebSocket and installs the handlers; a
constructor throw is caught inside `connect` itself, which then only appends
the failure line (leaving `ws.value` as it was). -/
def connect (st : AppState) (ctorFails : Bool) : AppState × List TraceEv :=
  if ctorFails then
    ({ st with log := st.log ++ [⟨"Failed to open WebSocket", "err"⟩] }, [])
  else
    ({ st with ws := some .connecting }, [.openCalled])

/-- `waitForOpen(ws.value, 5000)` together with handler side effects at the
settling event.  The third component is the display text of the rejection
(`e.message` as interpolated by `sendStart`'s catch), `none` on resolution.
Reading `readyState` off a null handle throws a TypeError, which the `try`
in `sendStart` also catches. -/
def waitForOpen (st : AppState) (env : OpenWaitEnv) :
    AppState × List TraceEv × Option String :=
  match st.ws with
  | none => (st, [], some "TypeError")
  | some rs =>
    if rs = .opened then (st, [], none)
    else if rs = .closed then (st, [], some "Socket is closed")
    else
      match env with
      | .openArrives =>
        ({ st with
            ws := some .opened
            connected := true
            log := st.log ++ [⟨"WebSocket connected", "ok"⟩] }, [.openConfirmed], none)
      | .closeArrives =>
        ({ st with
            ws := none
            connected := false
            log := st.log ++ [⟨"WebSocket closed", ""⟩] }, [], some "Closed before open")
      | .errorArrives =>
        ({ st with log := st.log ++ [⟨"WebSocket error (see console)", "err"⟩] },
         [], some "undefined")
      | .timesOut => (st, [], some "WebSocket open timeout")

/-- The environment resolving the suspension points of one `sendStart` call. -/
structure StartEnv where
  closeEnv : CloseWaitEnv
  ctorFails : Bool
  openEnv : OpenWaitEnv
deriving Repr

/-- The outcome of one `sendStart` call: final state, transport trace, and
the reason of the rejection when one escaped the operation. -/
structure StartResult where
  state : AppState
  trace : List TraceEv
  thrown : Option JsErr
deriving Repr

/-- The error line of the `action_type` gate (braces escaped). -/
def cfgShapeErrText : String :=
  "Config must be an object like \x7b\"action_type\":\"start\",\"cfg\":\x7b...\x7d\x7d"

/-- `sendStart()`.  `cfg` is the `JSON.parse` result of the config text
(`none` = parse failure).  Note the bare `await waitForClose(...)` with no
surrounding try/catch: its rejection escapes as `thrown`.  The
`await waitForOpen(...)` is wrapped in try/catch and surfaces as a
"Cannot send" log line. -/
def sendStart (st : AppState) (cfg : Option Json) (env : StartEnv) : StartResult :=
  let (st1, tr1) := disconnect st
  match waitForClose st1 env.closeEnv with
  | (st2, tr2, some e) => ⟨st2, tr1 ++ tr2, some e⟩
  | (st2, tr2, none) =>
    let (st3, tr3) := connect st2 env.ctorFails
    match waitForOpen st3 env.openEnv with
    | (st4, tr4, some msg) =>
      ⟨appendLine st4 ("Cannot send: " ++ msg) "err", tr1 ++ tr2 ++ tr3 ++ tr4, none⟩
    | (st4, tr4, none) =>
      let tr := tr1 ++ tr2 ++ tr3 ++ tr4
      if st4.ws ≠ some .opened then ⟨st4, tr, none⟩
      else
        match cfg with
        | none => ⟨appendLine st4 "Config JSON error: SyntaxError" "err", tr, none⟩
        | some payload =>
          if payload.truthy = false then
            ⟨appendLine st4 cfgShapeErrText "err", tr, none⟩
          else if attrIsStr payload "action_type" "start" = false then
            ⟨appendLine st4 cfgShapeErrText "err", tr, none⟩
          else
            ⟨appendLine st4 "→ sent start" "", tr ++ [.sentBytes payload], none⟩

/-- `\d` of the proxy-prefix regex. -/
def isDig (c : Char) : Bool := '0' ≤ c && c ≤ '9'

/-- The part of the proxy-prefix regex after the leading literal:
`[^/]+\/\d+\/?`, applied to the remainder `r1`; `pre` is the already-matched
literal.  Returns the whole regex match `m[0]` on success.  (The character
classes `[^/]` and `\d` are disjoint from the separators they stop at, so the
greedy, backtracking regex semantics coincide with this direct scan.) -/
def nodeTail (pre : List Char) (r1 : List Char) : Option (List Char) :=
  let host := r1.takeWhile (· != '/')
  if host.isEmpty then none
  else
    match r1.drop host.length with
    | '/' :: r3 =>
      let ds := r3.takeWhile isDig
      if ds.isEmpty then none
      else
        let slash : List Char :=
          match r3.drop ds.length with
          | '/' :: _ => ['/']
          | _ => []
        some (pre ++ host ++ '/' :: (ds ++ slash))
    | _ => none

/-- The anchored match of `/^\/node\/[^/]+\/\d+\/?/` (`m[0]`), or `none`. -/
def nodeMatch : List Char → Option (List Char)
  | '/' :: 'n' :: 'o' :: 'd' :: 'e' :: '/' :: r1 => nodeTail "/node/".data r1
  | _ => none

/-- `inferBasePath(pathname)` from `main.js`: the OOD proxy-prefix match,
normalized to end with `/`, else `"/"`. -/
def inferBasePath (pathname : String) : String :=
  match nodeMatch pathname.data with
  | some m => if m.getLast? = some '/' then ⟨m⟩ else ⟨m ++ ['/']⟩
  | none => "/"

/-- The anchored match of `/^\/(r?node)\/[^/]+\/\d+\/?/` (`m[0]`) from the
router's `inferOODBase`, or `none`. -/
def oodMatch : List Char → Option (List Char)
  | '/' :: 'r' :: 'n' :: 'o' :: 'd' :: 'e' :: '/' :: r1 => nodeTail "/rnode/".data r1
  | '/' :: 'n' :: 'o' :: 'd' :: 'e' :: '/' :: r1 => nodeTail "/node/".data r1
  | _ => none

/-- `inferOODBase(pathname)` from the router module. -/
def inferOODBase (pathname : String) : String :=
  match oodMatch pathname.data with
  | some m => if m.getLast? = some '/' then ⟨m⟩ else ⟨m ++ ['/']⟩
  | none => "/"

/-- `s.endsWith("/")` (the only `endsWith` use in the source). -/
def lastIsSlash (s : String) : Bool := s.data.getLast? = some '/'

/-- `s.startsWith("/")` (the only `startsWith` use in the source). -/
def headIsSlash (s : String) : Bool := s.data.head? = some '/'

/-- `join(a, b)` from `main.js`. -/
def join (a b : String) : String :=
  (if lastIsSlash a then a else a ++ "/") ++ (if headIsSlash b then b.drop 1 else b)

/-- JS `String.prototype.replace` with a plain-string pattern: replace the
first occurrence only. -/
def replaceFirstL (pat rep : List Char) : List Char → List Char
  | [] => if pat.isPrefixOf ([] : List Char) then rep else []
  | c :: t =>
    if pat.isPrefixOf (c :: t) then rep ++ (c :: t).drop pat.length
    else c :: replaceFirstL pat rep t

/-- String wrapper for `replaceFirstL`. -/
def replaceFirst (s pat rep : String) : String :=
  ⟨replaceFirstL pat.data rep.data s.data⟩

/-- Truthiness of a maybe-absent JS string (query param / config field):
falsy iff absent or the empty string. -/
def truthyStrOpt : Option String → Bool
  | some s => s != ""
  | none => false

/-- The relevant parts of `window.location`. -/
structure Location where
  protocol : String
  host : String
  pathname : String
deriving Repr

/-- `getBaseURL(subpath)`: layered resolution of the HTTP base.
`queryBase` is `?base=`, `runtimeBase` is `window.__APP_CONFIG__?.BASE_URL`,
`buildBase` is `import.meta.env?.VITE_BASE_URL`. -/
def getBaseURL (queryBase runtimeBase buildBase : Option String) (loc : Location)
    (subpath : String) : String :=
  let base0 := queryBase
  let base1 := if !truthyStrOpt base0 && truthyStrOpt runtimeBase then runtimeBase else base0
  let base2 := if !truthyStrOpt base1 && truthyStrOpt buildBase then buildBase else base1
  let base3 : String :=
    if truthyStrOpt base2 then base2.getD ""
    else loc.protocol ++ "//" ++ loc.host ++ inferBasePath loc.pathname
  let base4 := if lastIsSlash base3 then base3 else base3 ++ "/"
  if subpath != "" then join base4 subpath else base4

/-- `getWsURL(path)`: `?ws=`, then `WS_URL`, then `VITE_WS_URL`, then the
scheme-substituted derivation from `getBaseURL()`. -/
def getWsURL (queryWs runtimeWs buildWs : Option String)
    (queryBase runtimeBase buildBase : Option String) (loc : Location)
    (path : String) : String :=
  if truthyStrOpt queryWs then queryWs.getD ""
  else if truthyStrOpt runtimeWs then runtimeWs.getD ""
  else if truthyStrOpt buildWs then buildWs.getD ""
  else
    let wsProto := if loc.protocol = "https:" then "wss" else "ws"
    let base := getBaseURL queryBase runtimeBase buildBase loc ""
    let pfx := replaceFirst base (loc.protocol ++ "//" ++ loc.host) ""
    wsProto ++ "://" ++ loc.host ++ join pfx path

/-- Truthiness of `o.k` for a non-null receiver. -/
def truthyAttr (o : Json) (k : String) : Bool :=
  match o.attr k with
  | some v => v.truthy
  | none => false

/-- One `fetchJobs`/`loadJobs` round trip: `resOk` is the fetch response's
2xx flag, `status` its code, `body` the `res.json()` result (`none` = body
not JSON).  `Except.error` is the caught failure shown in the error field;
`Except.ok` is the job list assigned on success. -/
def fetchJobs (resOk : Bool) (status : Nat) (body : Option Json) :
    Except String (List Json) :=
  if resOk = false then .error ("HTTP " ++ toString status)
  else
    match body with
    | none => .error "SyntaxError"
    | some data =>
      match data with
      | .null => .error "TypeError"
      | _ =>
        if truthyAttr data "ok" = false then .error "Server returned ok=false"
        else
          .ok (match data.attr "job_ids" with
               | some (.arr xs) => xs
               | _ => [])

/-- Whether the trace contains a `close()` call. -/
def hasCloseCalled : List TraceEv → Bool
  | [] => false
  | .closeCalled :: _ => true
  | .closeConfirmed :: t => hasCloseCalled t
  | .openCalled :: t => hasCloseCalled t
  | .openConfirmed :: t => hasCloseCalled t
  | .sentBytes _ :: t => hasCloseCalled t

/-- Whether the trace contains the construction of a new transport. -/
def hasOpenCalled : List TraceEv → Bool
  | [] => false
  | .closeCalled :: t => hasOpenCalled t
  | .closeConfirmed :: t => hasOpenCalled t
  | .openCalled :: _ => true
  | .openConfirmed :: t => hasOpenCalled t
  | .sentBytes _ :: t => hasOpenCalled t

/-- Whether any bytes were sent on the transport. -/
def hasSent : List TraceEv → Bool
  | [] => false
  | .closeCalled :: t => hasSent t
  | .closeConfirmed :: t => hasSent t
  | .openCalled :: t => hasSent t
  | .openConfirmed :: t => hasSent t
  | .sentBytes _ :: _ => true

/-- `openOnlyAfterConfirm seen tr`: every `openCalled` in `tr` is preceded by
a `closeConfirmed` (or closure was already confirmed before `tr`, when
`seen = true`). -/
def openOnlyAfterConfirm (seen : Bool) : List TraceEv → Bool
  | [] => true
  | .closeCalled :: t => openOnlyAfterConfirm seen t
  | .closeConfirmed :: t => openOnlyAfterConfirm true t
  | .openCalled :: t => seen && openOnlyAfterConfirm seen t
  | .openConfirmed :: t => openOnlyAfterConfirm seen t
  | .sentBytes _ :: t => openOnlyAfterConfirm seen t

/-- Specification of the `run_id` write sites: the value cached by
`writeRunId`, when one is. -/
def runIdTarget (o : Json) : Option Json :=
  match o.attr "run_id" with
  | some v => if v.truthy then some v else none
  | none => none

/-- Which inbound payloads update the cached run id, per the code: only the
`type == "event"` branch and the truthy top-level `status` branch of
`appendEvent` carry a `writeRunId` site. -/
def runIdUpdate : Option Json → Option Json
  | none => none
  | some .null => none
  | some o =>
    if attrIsStr o "type" "event" then runIdTarget o
    else if attrIsStr o "type" "error" then none
    else
      match o.attr "status" with
      | some v => if v.truthy then runIdTarget o else none
      | none => none

/-- The write-if-present fold over a message sequence implied by the code's
run-id write sites. -/
def foldRunId (init : Option Json) (msgs : List (Option Json)) : Option Json :=
  msgs.foldl
    (fun acc m =>
      match runIdUpdate m with
      | some v => some v
      | none => acc) init

/-- Run-id well-formedness: a cached run id is always truthy (falsy values
never pass the `if (obj.run_id)` guard). -/
def runIdWF (st : AppState) : Prop :=
  ∀ v : Json, st.currentRunId = some v → v.truthy = true

/-! ## Theorems -/

theorem appendLine_currentRunId (st : AppState) (t c : String) :
    (appendLine st t c).currentRunId = st.currentRunId := rfl

theorem appendLine_connected (st : AppState) (t c : String) :
    (appendLine st t c).connected = st.connected := rfl

theorem appendLine_ws (st : AppState) (t c : String) :
    (appendLine st t c).ws = st.ws := rfl

theorem writeRunId_currentRunId (st : AppState) (o : Json) :
    (writeRunId st o).currentRunId =
      (match runIdTarget o with
       | some v => some v
       | none => st.currentRunId) := by
  unfold writeRunId runIdTarget
  cases h : o.attr "run_id" with
  | none => rfl
  | some v => cases hv : v.truthy <;> simp [hv]

theorem writeRunId_connected (st : AppState) (o : Json) :
    (writeRunId st o).connected = st.connected := by
  unfold writeRunId
  cases h : o.attr "run_id" with
  | none => rfl
  | some v => cases hv : v.truthy <;> simp [hv]

theorem writeRunId_ws (st : AppState) (o : Json) :
    (writeRunId st o).ws = st.ws := by
  unfold writeRunId
  cases h : o.attr "run_id" with
  | none => rfl
  | some v => cases hv : v.truthy <;> simp [hv]

theorem appendEventNN_currentRunId (st : AppState) (o : Json) :
    (appendEventNN st o).currentRunId =
      (match runIdUpdate (some o) with
       | some v => some v
       | none => st.currentRunId) := by
  cases o with
  | null => rfl
  | bool b => rfl
  | num n => rfl
  | str s => rfl
  | arr xs => rfl
  | obj fs =>
    show (appendEventNN st (.obj fs)).currentRunId = _
    unfold appendEventNN runIdUpdate
    by_cases h1 : attrIsStr (Json.obj fs) "type" "event" = true
    · simp only [h1, if_true, writeRunId_currentRunId]
      split
      · rfl
      · repeat' split
        all_goals rfl
    · simp only [Bool.not_eq_true] at h1
      simp only [h1, Bool.false_eq_true, if_false]
      by_cases h2 : attrIsStr (Json.obj fs) "type" "error" = true
      · simp only [h2, if_true]
        rfl
      · simp only [Bool.not_eq_true] at h2
        simp only [h2, Bool.false_eq_true, if_false]
        cases hs : (Json.obj fs).attr "status" with
        | none => simp only [hs]; rfl
        | some v =>
          cases hv : v.truthy with
          | false => simp only [hs, hv, Bool.false_eq_true, if_false]; rfl
          | true =>
            simp only [hs, hv, if_true, writeRunId_currentRunId]
            split <;> rfl

theorem handleMessage_currentRunId (st : AppState) (m : Option Json) :
    (handleMessage st m).currentRunId =
      (match runIdUpdate m with
       | some v => some v
       | none => st.currentRunId) := by
  cases m with
  | none => rfl
  | some o =>
    cases o with
    | null => rfl
    | bool b => exact appendEventNN_currentRunId st (.bool b)
    | num n => exact appendEventNN_currentRunId st (.num n)
    | str s => exact appendEventNN_currentRunId st (.str s)
    | arr xs => exact appendEventNN_currentRunId st (.arr xs)
    | obj fs => exact appendEventNN_currentRunId st (.obj fs)

theorem processAll_currentRunId (msgs : List (Option Json)) (st : AppState) :
    (processAll st msgs).currentRunId = foldRunId st.currentRunId msgs := by
  induction msgs generalizing st with
  | nil => rfl
  | cons m t ih =>
    show (processAll (handleMessage st m) t).currentRunId = _
    rw [ih]
    unfold foldRunId
    rw [List.foldl_cons, handleMessage_currentRunId]

theorem appendEventNN_connected (st : AppState) (o : Json) :
    (appendEventNN st o).connected = st.connected := by
  cases o with
  | null => rfl
  | bool b => rfl
  | num n => rfl
  | str s => rfl
  | arr xs => rfl
  | obj fs =>
    unfold appendEventNN
    repeat' split
    all_goals try simp only [writeRunId_connected]
    all_goals repeat' split
    all_goals rfl

theorem appendEventNN_ws (st : AppState) (o : Json) :
    (appendEventNN st o).ws = st.ws := by
  cases o with
  | null => rfl
  | bool b => rfl
  | num n => rfl
  | str s => rfl
  | arr xs => rfl
  | obj fs =>
    unfold appendEventNN
    repeat' split
    all_goals try simp only [writeRunId_ws]
    all_goals repeat' split
    all_goals rfl

theorem handleMessage_connected (st : AppState) (m : Option Json) :
    (handleMessage st m).connected = st.connected := by
  cases m with
  | none => rfl
  | some o =>
    cases o with
    | null => rfl
    | bool b => exact appendEventNN_connected st (.bool b)
    | num n => exact appendEventNN_connected st (.num n)
    | str s => exact appendEventNN_connected st (.str s)
    | arr xs => exact appendEventNN_connected st (.arr xs)
    | obj fs => exact appendEventNN_connected st (.obj fs)

theorem handleMessage_ws (st : AppState) (m : Option Json) :
    (handleMessage st m).ws = st.ws := by
  cases m with
  | none => rfl
  | some o =>
    cases o with
    | null => rfl
    | bool b => exact appendEventNN_ws st (.bool b)
    | num n => exact appendEventNN_ws st (.num n)
    | str s => exact appendEventNN_ws st (.str s)
    | arr xs => exact appendEventNN_ws st (.arr xs)
    | obj fs => exact appendEventNN_ws st (.obj fs)

theorem runIdTarget_truthy (o v : Json) (h : runIdTarget o = some v) :
    v.truthy = true := by
  unfold runIdTarget at h
  split at h
  next w heq =>
    split at h
    next hw => cases h; exact hw
    next hw => cases h
  next heq => cases h

theorem runIdUpdate_truthy (m : Option Json) (v : Json) (h : runIdUpdate m = some v) :
    v.truthy = true := by
  cases m with
  | none => cases h
  | some o =>
    cases o with
    | null => cases h
    | bool b => cases h
    | num n => cases h
    | str s => cases h
    | arr xs => cases h
    | obj fs =>
      simp only [runIdUpdate] at h
      split at h
      · exact runIdTarget_truthy _ v h
      · split at h
        · cases h
        · split at h
          next w heq =>
            split at h
            · exact runIdTarget_truthy _ v h
            · cases h
          next heq => cases h

theorem handleMessage_runIdWF (st : AppState) (m : Option Json) (h : runIdWF st) :
    runIdWF (handleMessage st m) := by
  intro v hv
  rw [handleMessage_currentRunId] at hv
  cases hu : runIdUpdate m with
  | none => rw [hu] at hv; exact h v hv
  | some w => rw [hu] at hv; cases hv; exact runIdUpdate_truthy m _ hu

/-- Claim C3 (counterexample): a protocol-error message carrying a `run_id`
reaches the `type == "error"` branch of `appendEvent`, which has no run-id
write site: the cached RunIdentifier stays `none` instead of becoming
`"r9"`; likewise for the unclassified fallback branch. -/
theorem appendEvent_protocol_error_drops_run_id :
    (handleMessage initState
        (some (.obj [("type", .str "error"), ("run_id", .str "r9")]))).currentRunId = none
    ∧ ¬ (handleMessage initState
          (some (.obj [("type", .str "error"), ("run_id", .str "r9")]))).currentRunId
        = some (.str "r9")
    ∧ (handleMessage initState
        (some (.obj [("weird", .bool true), ("run_id", .str "r8")]))).currentRunId = none := by
  refine ⟨rfl, fun h => Option.noConfusion h, rfl⟩

/-- Claim C3 (amended): the cached RunIdentifier is the write-if-present fold
of the run-id writes the code actually performs — only messages decoded in
the `type == "event"` branch or the truthy top-level `status` branch, and
carrying a truthy `run_id`, update the cache (`runIdUpdate`); protocol
errors, unclassified fallbacks and messages lacking `run_id` leave the cache
untouched, in particular never resetting it to `undefined`. -/
theorem currentRunId_write_if_present (st : AppState) (msgs : List (Option Json))
    (m : Option Json) (hm : runIdUpdate m = none) :
    (processAll st msgs).currentRunId = foldRunId st.currentRunId msgs
    ∧ (handleMessage st m).currentRunId = st.currentRunId := by
  refine ⟨processAll_currentRunId msgs st, ?_⟩
  rw [handleMessage_currentRunId, hm]

/-- Witness for `currentRunId_write_if_present` at a concrete message
sequence (milestone with `run_id:"r1"`, terminal failure with `"r2"`,
protocol error with `"r9"`, then a parse failure). -/
theorem currentRunId_write_if_present_witness :
    (processAll initState
        [some (.obj [("type", .str "event"), ("subtype", .str "milestone"), ("run_id", .str "r1")]),
         some (.obj [("status", .str "fail"), ("run_id", .str "r2")]),
         some (.obj [("type", .str "error"), ("run_id", .str "r9")]),
         none]).currentRunId
      = some (.str "r2")
    ∧ (handleMessage initState (some (.obj [("type", .str "error")]))).currentRunId = none := by
  have h := currentRunId_write_if_present initState
    [some (.obj [("type", .str "event"), ("subtype", .str "milestone"), ("run_id", .str "r1")]),
     some (.obj [("status", .str "fail"), ("run_id", .str "r2")]),
     some (.obj [("type", .str "error"), ("run_id", .str "r9")]),
     none]
    (some (.obj [("type", .str "error")])) rfl
  exact ⟨h.1.trans rfl, h.2.trans rfl⟩

/-- Claim C8 (counterexample): the decode path can throw.  The transport text
"null" parses successfully to the JS value `null`, and `appendEvent(null)`
then throws a TypeError at its first property access (`obj.type`); the
handler's catch absorbs it as a (misclassified) "bad JSON from server" line. -/
theorem appendEvent_null_throws :
    appendEvent initState Json.null = Except.error ()
    ∧ handleMessage initState (some .null)
        = appendLine initState "bad JSON from server: TypeError" "err" := ⟨rfl, rfl⟩

/-- Claim C8 (amended): a payload that fails JSON parsing yields exactly one
local "bad JSON" err line and leaves the connection state untouched; the
decode path (including the unclassified fallback) never throws for any parsed
payload other than the JS value `null`, whose first property access throws a
TypeError that the same catch absorbs into the same local line; and no
inbound payload whatsoever changes `connected` or the socket handle. -/
theorem decode_parse_failure_local_only (st : AppState) (m : Option Json) (o : Json)
    (ho : o ≠ .null) :
    handleMessage st none = appendLine st "bad JSON from server: SyntaxError" "err"
    ∧ (handleMessage st m).connected = st.connected
    ∧ (handleMessage st m).ws = st.ws
    ∧ appendEvent st o = .ok (appendEventNN st o)
    ∧ handleMessage st (some .null)
        = appendLine st "bad JSON from server: TypeError" "err" := by
  refine ⟨rfl, handleMessage_connected st m, handleMessage_ws st m, ?_, rfl⟩
  cases o with
  | null => exact absurd rfl ho
  | bool b => rfl
  | num n => rfl
  | str s => rfl
  | arr xs => rfl
  | obj fs => rfl

/-- Witness for `decode_parse_failure_local_only` at the connected state and
the unclassified payload `{"weird":1}`. -/
theorem decode_parse_failure_local_only_witness :
    handleMessage { initState with ws := some .opened, connected := true } none
      = appendLine { initState with ws := some .opened, connected := true }
          "bad JSON from server: SyntaxError" "err"
    ∧ (handleMessage { initState with ws := some .opened, connected := true }
        (some (.obj [("weird", .num 1)]))).connected = true := by
  have h := decode_parse_failure_local_only
    { initState with ws := some .opened, connected := true }
    (some (.obj [("weird", .num 1)])) (.obj [("weird", .num 1)])
    (fun hn => Json.noConfusion hn)
  exact ⟨h.1, h.2.1.trans rfl⟩

/-- Claim C7: `sendStatus`/`sendCancel` are silent no-ops (zero bytes, state
unchanged) unless a socket exists with readyState OPEN; when connected, the
outbound message carries the cached RunIdentifier when one is cached (cached
ids are always truthy, an invariant established by the decoder) and omits
`run_id` otherwise. -/
theorem sendStatus_sendCancel_gating :
    (∀ st : AppState, st.ws ≠ some .opened →
        sendStatus st = (st, []) ∧ sendCancel st = (st, []))
    ∧ (∀ st : AppState, ∀ v : Json, st.ws = some .opened → runIdWF st →
        st.currentRunId = some v →
        (sendStatus st).2 = [.obj [("action_type", .str "status"), ("run_id", v)]]
        ∧ (sendCancel st).2 = [.obj [("action_type", .str "cancel"), ("run_id", v)]])
    ∧ (∀ st : AppState, st.ws = some .opened → st.currentRunId = none →
        (sendStatus st).2 = [.obj [("action_type", .str "status")]]
        ∧ (sendCancel st).2 = [.obj [("action_type", .str "cancel")]])
    ∧ runIdWF initState
    ∧ (∀ (st : AppState) (m : Option Json), runIdWF st → runIdWF (handleMessage st m)) := by
  refine ⟨?_, ?_, ?_, ?_, fun st m h => handleMessage_runIdWF st m h⟩
  · intro st h
    cases hws : st.ws with
    | none => simp [sendStatus, sendCancel, hws]
    | some rs =>
      have hrs : ¬ rs = .opened := fun hr => h (hr ▸ hws)
      simp [sendStatus, sendCancel, hws, hrs]
  · intro st v hws hwf hrid
    have hv : v.truthy = true := hwf v hrid
    simp [sendStatus, sendCancel, actionMsg, hws, hrid, hv]
  · intro st hws hrid
    simp [sendStatus, sendCancel, actionMsg, hws, hrid]
  · intro v hv
    exact Option.noConfusion hv

/-- Witness for `sendStatus_sendCancel_gating`: a disconnected state sends
nothing; a connected state with cached id `"r1"` includes it; a connected
state with no cached id omits it. -/
theorem sendStatus_sendCancel_gating_witness :
    sendStatus { initState with ws := some .closing } = ({ initState with ws := some .closing }, [])
    ∧ (sendStatus { initState with ws := some .opened, currentRunId := some (.str "r1") }).2
        = [.obj [("action_type", .str "status"), ("run_id", .str "r1")]]
    ∧ (sendCancel { initState with ws := some .opened }).2
        = [.obj [("action_type", .str "cancel")]] := by
  refine ⟨?_, ?_, ?_⟩
  · exact (sendStatus_sendCancel_gating.1 { initState with ws := some .closing }
      (fun h => by cases h)).1
  · exact ((sendStatus_sendCancel_gating.2.1 { initState with ws := some .opened, currentRunId := some (.str "r1") }
      (.str "r1") rfl (fun v hv => by cases hv; rfl) rfl)).1
  · exact ((sendStatus_sendCancel_gating.2.2.1 { initState with ws := some .opened }
      rfl rfl)).2

/-- Claim C9 (counterexample): a 2xx response whose body is `{"ok": true}` —
`ok:true` present but `job_ids` missing entirely — is reported as success
with an empty job list, not as a failure as the claim requires. -/
theorem fetchJobs_missing_job_ids_success :
    fetchJobs true 200 (some (.obj [("ok", .bool true)])) = .ok []
    ∧ (Json.obj [("ok", .bool true)]).attr "job_ids" = none
    ∧ fetchJobs true 200 (some (.obj [("ok", .bool true), ("job_ids", .str "zz")])) = .ok [] :=
  ⟨rfl, rfl, rfl⟩

/-- Claim C9 (amended): the listing is a failure exactly when the response is
non-2xx (regardless of body), the body fails to parse, the body is the JS
value `null` (whose `data.ok` access throws, caught as a failure), or the
body's `ok` field is falsy; when `ok` is truthy the result is a success even
if `job_ids` is missing or not an array, in which case the job list degrades
to `[]`. -/
theorem fetchJobs_success_characterization :
    (∀ (status : Nat) (body : Option Json),
        fetchJobs false status body = .error ("HTTP " ++ toString status))
    ∧ (∀ status : Nat, fetchJobs true status none = .error "SyntaxError")
    ∧ (∀ status : Nat, fetchJobs true status (some .null) = .error "TypeError")
    ∧ (∀ (status : Nat) (d : Json), d ≠ .null → truthyAttr d "ok" = false →
        fetchJobs true status (some d) = .error "Server returned ok=false")
    ∧ (∀ (status : Nat) (d : Json) (xs : List Json), d ≠ .null → truthyAttr d "ok" = true →
        d.attr "job_ids" = some (.arr xs) → fetchJobs true status (some d) = .ok xs)
    ∧ (∀ (status : Nat) (d : Json), d ≠ .null → truthyAttr d "ok" = true →
        (∀ xs : List Json, d.attr "job_ids" ≠ some (.arr xs)) →
        fetchJobs true status (some d) = .ok []) := by
  refine ⟨fun status body => rfl, fun status => rfl, fun status => rfl, ?_, ?_, ?_⟩
  · intro status d hd hok
    cases d with
    | null => exact absurd rfl hd
    | bool b => simp [fetchJobs, hok]
    | num n => simp [fetchJobs, hok]
    | str s => simp [fetchJobs, hok]
    | arr xs => simp [fetchJobs, hok]
    | obj fs => simp [fetchJobs, hok]
  · intro status d xs hd hok hjob
    cases d with
    | null => exact absurd rfl hd
    | bool b => cases hjob
    | num n => cases hjob
    | str s => cases hjob
    | arr ys => cases hjob
    | obj fs => simp [fetchJobs, hok, hjob]
  · intro status d hd hok hjob
    cases d with
    | null => exact absurd rfl hd
    | bool b => simp [fetchJobs, hok]
    | num n => simp [fetchJobs, hok]
    | str s => simp [fetchJobs, hok]
    | arr ys => simp [fetchJobs, hok]
    | obj fs =>
      simp only [fetchJobs, hok]
      cases hj : (Json.obj fs).attr "job_ids" with
      | none => simp [hj]
      | some j =>
        cases j with
        | arr ys => exact absurd hj (hjob ys)
        | null => simp [hj]
        | bool b => simp [hj]
        | num n => simp [hj]
        | str s => simp [hj]
        | obj gs => simp [hj]

/-- Witness for `fetchJobs_success_characterization` at concrete responses. -/
theorem fetchJobs_success_characterization_witness :
    fetchJobs true 200 (some (.obj [("ok", .bool false), ("job_ids", .arr [.str "j1"])]))
      = .error "Server returned ok=false"
    ∧ fetchJobs true 200 (some (.obj [("ok", .bool true), ("job_ids", .arr [.str "j1"])]))
      = .ok [.str "j1"]
    ∧ fetchJobs false 500 (some (.obj [("ok", .bool true), ("job_ids", .arr [.str "j1"])]))
      = .error "HTTP 500" := by
  refine ⟨?_, ?_, ?_⟩
  · exact fetchJobs_success_characterization.2.2.2.1 200
      (.obj [("ok", .bool false), ("job_ids", .arr [.str "j1"])])
      (fun h => Json.noConfusion h) rfl
  · exact fetchJobs_success_characterization.2.2.2.2.1 200
      (.obj [("ok", .bool true), ("job_ids", .arr [.str "j1"])]) [.str "j1"]
      (fun h => Json.noConfusion h) rfl rfl
  · exact fetchJobs_success_characterization.1 500
      (some (.obj [("ok", .bool true), ("job_ids", .arr [.str "j1"])]))

/-- Claim C1: in every `sendStart` run, a replacement transport is
constructed only after closure of the existing one is confirmed (a close
event observed during `waitForClose`; a socket already at readyState CLOSED
counts as confirmed before the call); and when no socket exists, `sendStart`
degrades to a plain open: no `close()` call, and the first transport
operation is the construction of the new socket. -/
theorem sendStart_restart_ordering (st : AppState) (cfg : Option Json) (env : StartEnv) :
    (∀ rs : ReadyState, st.ws = some rs → rs ≠ .closed →
        openOnlyAfterConfirm false (sendStart st cfg env).trace = true)
    ∧ (st.ws = none →
        hasCloseCalled (sendStart st cfg env).trace = false
        ∧ (env.ctorFails = false →
            (sendStart st cfg env).trace.head? = some .openCalled)) := by
  obtain ⟨ce, cf, oe⟩ := env
  obtain ⟨ws, conn, rid, lg⟩ := st
  constructor
  · rintro rs hws hrs
    cases ws with
    | none => cases hws
    | some rs0 =>
      injection hws with h
      subst h
      cases rs0 with
      | closed => exact absurd rfl hrs
      | connecting =>
        cases ce <;> cases cf <;> cases oe <;>
          first
          | rfl
          | (rcases cfg with _ | p
             · rfl
             · cases hp : p.truthy <;>
                 cases ha : attrIsStr p "action_type" "start" <;>
                 simp [sendStart, disconnect, waitForClose, connect, waitForOpen, appendLine,
                       openOnlyAfterConfirm, hp, ha])
      | opened =>
        cases ce <;> cases cf <;> cases oe <;>
          first
          | rfl
          | (rcases cfg with _ | p
             · rfl
             · cases hp : p.truthy <;>
                 cases ha : attrIsStr p "action_type" "start" <;>
                 simp [sendStart, disconnect, waitForClose, connect, waitForOpen, appendLine,
                       openOnlyAfterConfirm, hp, ha])
      | closing =>
        cases ce <;> cases cf <;> cases oe <;>
          first
          | rfl
          | (rcases cfg with _ | p
             · rfl
             · cases hp : p.truthy <;>
                 cases ha : attrIsStr p "action_type" "start" <;>
                 simp [sendStart, disconnect, waitForClose, connect, waitForOpen, appendLine,
                       openOnlyAfterConfirm, hp, ha])
  · intro hws
    cases ws with
    | some rs0 => cases hws
    | none =>
      refine ⟨?_, ?_⟩
      · cases cf <;> cases oe <;>
          first
          | rfl
          | (rcases cfg with _ | p
             · rfl
             · cases hp : p.truthy <;>
                 cases ha : attrIsStr p "action_type" "start" <;>
                 simp [sendStart, disconnect, waitForClose, connect, waitForOpen, appendLine,
                       hasCloseCalled, hp, ha])
      · intro hcf
        cases hcf
        cases oe <;>
          first
          | rfl
          | (rcases cfg with _ | p
             · rfl
             · cases hp : p.truthy <;>
                 cases ha : attrIsStr p "action_type" "start" <;>
                 simp [sendStart, disconnect, waitForClose, connect, waitForOpen, appendLine,
                       hp, ha])

/-- Witness for `sendStart_restart_ordering`: a call over an OPEN socket whose
close completes, and a call with no socket at all. -/
theorem sendStart_restart_ordering_witness :
    openOnlyAfterConfirm false
      (sendStart { initState with ws := some .opened, connected := true }
        (some (.obj [("action_type", .str "start"), ("cfg", .obj [])]))
        ⟨.closeArrives, false, .openArrives⟩).trace = true
    ∧ hasCloseCalled
        (sendStart initState (some (.obj [("action_type", .str "start"), ("cfg", .obj [])]))
          ⟨.closeArrives, false, .openArrives⟩).trace = false
    ∧ (sendStart initState (some (.obj [("action_type", .str "start"), ("cfg", .obj [])]))
        ⟨.closeArrives, false, .openArrives⟩).trace.head? = some .openCalled := by
  refine ⟨?_, ?_, ?_⟩
  · exact (sendStart_restart_ordering
      { initState with ws := some .opened, connected := true }
      (some (.obj [("action_type", .str "start"), ("cfg", .obj [])]))
      ⟨.closeArrives, false, .openArrives⟩).1 .opened rfl (by decide)
  · exact ((sendStart_restart_ordering initState
      (some (.obj [("action_type", .str "start"), ("cfg", .obj [])]))
      ⟨.closeArrives, false, .openArrives⟩).2 rfl).1
  · exact ((sendStart_restart_ordering initState
      (some (.obj [("action_type", .str "start"), ("cfg", .obj [])]))
      ⟨.closeArrives, false, .openArrives⟩).2 rfl).2 rfl

theorem appendLine_getLast? (st : AppState) (t c : String) :
    (appendLine st t c).log.getLast? = some ⟨t, c⟩ := by
  simp [appendLine, List.getLast?_concat]

/-- Claim C2 (counterexample): with an OPEN connection and a config text that
fails JSON parsing, `sendStart` still closes the old socket and opens a new
one — the connection is very much "touched" before the cfg validation, which
only happens after the restart cycle. -/
theorem sendStart_badCfg_touches_connection :
    hasCloseCalled
      (sendStart { initState with ws := some .opened, connected := true } none
        ⟨.closeArrives, false, .openArrives⟩).trace = true
    ∧ hasOpenCalled
        (sendStart { initState with ws := some .opened, connected := true } none
          ⟨.closeArrives, false, .openArrives⟩).trace = true := ⟨rfl, rfl⟩

/-- Claim C2 (amended): when the config text fails JSON parsing, `sendStart`
sends zero bytes on the transport in every environment — but the validation
happens only after the restart cycle, and when that cycle completes the
operation surfaces a local "Config JSON error" line as its last log entry. -/
theorem sendStart_badCfg_sends_nothing (st : AppState) (env : StartEnv) :
    hasSent (sendStart st none env).trace = false
    ∧ (sendStart st none ⟨.closeArrives, false, .openArrives⟩).state.log.getLast?
        = some ⟨"Config JSON error: SyntaxError", "err"⟩ := by
  obtain ⟨ce, cf, oe⟩ := env
  obtain ⟨ws, conn, rid, lg⟩ := st
  constructor
  · cases ws with
    | none => cases cf <;> cases oe <;> rfl
    | some rs => cases rs <;> cases ce <;> cases cf <;> cases oe <;> rfl
  · cases ws with
    | none => exact appendLine_getLast? _ _ _
    | some rs => cases rs <;> exact appendLine_getLast? _ _ _

/-- Claim C10: a config text that parses to a falsy value or to a payload
whose `action_type` is not the string "start" passes the restart cycle
unimpeded, but the send gate then rejects it: zero bytes are sent in every
environment, and under a completed restart the last log line is the local
shape-validation error while the close/reopen still happened. -/
theorem sendStart_action_type_gate (st : AppState) (p : Json) (env : StartEnv)
    (hbad : p.truthy = false ∨ attrIsStr p "action_type" "start" = false) :
    hasSent (sendStart st (some p) env).trace = false
    ∧ (sendStart st (some p) ⟨.closeArrives, false, .openArrives⟩).state.log.getLast?
        = some ⟨cfgShapeErrText, "err"⟩
    ∧ hasOpenCalled (sendStart st (some p) ⟨.closeArrives, false, .openArrives⟩).trace = true
    ∧ (st.ws = some .opened →
        hasCloseCalled (sendStart st (some p) ⟨.closeArrives, false, .openArrives⟩).trace
          = true) := by
  obtain ⟨ce, cf, oe⟩ := env
  obtain ⟨ws, conn, rid, lg⟩ := st
  refine ⟨?_, ?_, ?_, ?_⟩
  · rcases hbad with hb | hb
    · cases ws with
      | none =>
        cases cf <;> cases oe <;>
          first
          | rfl
          | simp [sendStart, disconnect, waitForClose, connect, waitForOpen, appendLine,
                  hasSent, hb]
      | some rs =>
        cases rs <;> cases ce <;> cases cf <;> cases oe <;>
          first
          | rfl
          | simp [sendStart, disconnect, waitForClose, connect, waitForOpen, appendLine,
                  hasSent, hb]
    · cases ws with
      | none =>
        cases cf <;> cases oe <;>
          first
          | rfl
          | (cases hp : p.truthy <;>
              simp [sendStart, disconnect, waitForClose, connect, waitForOpen, appendLine,
                    hasSent, hb, hp])
      | some rs =>
        cases rs <;> cases ce <;> cases cf <;> cases oe <;>
          first
          | rfl
          | (cases hp : p.truthy <;>
              simp [sendStart, disconnect, waitForClose, connect, waitForOpen, appendLine,
                    hasSent, hb, hp])
  · rcases hbad with hb | hb
    · cases ws with
      | none =>
        simp only [sendStart, disconnect, waitForClose, connect, waitForOpen, hb]
        exact appendLine_getLast? _ _ _
      | some rs =>
        cases rs <;>
          (simp only [sendStart, disconnect, waitForClose, connect, waitForOpen, hb]
           exact appendLine_getLast? _ _ _)
    · cases ws with
      | none =>
        cases hp : p.truthy <;>
          (simp only [sendStart, disconnect, waitForClose, connect, waitForOpen, hb, hp]
           exact appendLine_getLast? _ _ _)
      | some rs =>
        cases rs <;> cases hp : p.truthy <;>
          (simp only [sendStart, disconnect, waitForClose, connect, waitForOpen, hb, hp]
           exact appendLine_getLast? _ _ _)
  · rcases hbad with hb | hb
    · cases ws with
      | none => simp [sendStart, disconnect, waitForClose, connect, waitForOpen, appendLine,
                      hasOpenCalled, hb]
      | some rs =>
        cases rs <;>
          simp [sendStart, disconnect, waitForClose, connect, waitForOpen, appendLine,
                hasOpenCalled, hb]
    · cases ws with
      | none =>
        cases hp : p.truthy <;>
          simp [sendStart, disconnect, waitForClose, connect, waitForOpen, appendLine,
                hasOpenCalled, hb, hp]
      | some rs =>
        cases rs <;> cases hp : p.truthy <;>
          simp [sendStart, disconnect, waitForClose, connect, waitForOpen, appendLine,
                hasOpenCalled, hb, hp]
  · intro hws
    cases ws with
    | none => cases hws
    | some rs =>
      injection hws with h
      subst h
      rcases hbad with hb | hb
      · simp [sendStart, disconnect, waitForClose, connect, waitForOpen, appendLine,
              hasCloseCalled, hb]
      · cases hp : p.truthy <;>
          simp [sendStart, disconnect, waitForClose, connect, waitForOpen, appendLine,
                hasCloseCalled, hb, hp]

/-- Witness for `sendStart_action_type_gate` at the payload
`{"action_type":"status"}` over an OPEN connection. -/
theorem sendStart_action_type_gate_witness :
    hasSent
      (sendStart { initState with ws := some .opened, connected := true }
        (some (.obj [("action_type", .str "status")]))
        ⟨.closeArrives, false, .openArrives⟩).trace = false
    ∧ hasCloseCalled
        (sendStart { initState with ws := some .opened, connected := true }
          (some (.obj [("action_type", .str "status")]))
          ⟨.closeArrives, false, .openArrives⟩).trace = true := by
  have h := sendStart_action_type_gate
    { initState with ws := some .opened, connected := true }
    (.obj [("action_type", .str "status")])
    ⟨.closeArrives, false, .openArrives⟩ (Or.inr rfl)
  exact ⟨h.1, h.2.2.2 rfl⟩

/-- Claim C4 (code slip): `await waitForClose(...)` in `sendStart` has no
surrounding try/catch, so a close-wait timeout escapes the operation as an
uncaught rejection; the open-wait timeout one line later is caught, logged as
a "Cannot send" line, and aborts the restart without sending. -/
theorem sendStart_close_timeout_escapes :
    (sendStart { initState with ws := some .opened, connected := true }
        (some (.obj [("action_type", .str "start"), ("cfg", .obj [])]))
        ⟨.timesOut, false, .openArrives⟩).thrown
      = some (.withMessage "WebSocket open timeout")
    ∧ (sendStart { initState with ws := some .opened, connected := true }
        (some (.obj [("action_type", .str "start"), ("cfg", .obj [])]))
        ⟨.closeArrives, false, .timesOut⟩).thrown = none
    ∧ (sendStart { initState with ws := some .opened, connected := true }
        (some (.obj [("action_type", .str "start"), ("cfg", .obj [])]))
        ⟨.closeArrives, false, .timesOut⟩).state.log.getLast?
      = some ⟨"Cannot send: WebSocket open timeout", "err"⟩
    ∧ hasSent
        (sendStart { initState with ws := some .opened, connected := true }
          (some (.obj [("action_type", .str "start"), ("cfg", .obj [])]))
          ⟨.closeArrives, false, .timesOut⟩).trace = false := ⟨rfl, rfl, rfl, rfl⟩

/-- `takeWhile` stops exactly at the first separator after a clean prefix. -/
theorem takeWhile_app (p : Char → Bool) (l₁ : List Char) (c : Char) (l₂ : List Char)
    (h₁ : ∀ x ∈ l₁, p x = true) (hc : p c = false) :
    (l₁ ++ c :: l₂).takeWhile p = l₁ := by
  induction l₁ with
  | nil => simp [List.takeWhile_cons, hc]
  | cons a t ih =>
    have ha : p a = true := h₁ a (by simp)
    simp only [List.cons_append, List.takeWhile_cons, ha]
    simp [ih fun x hx => h₁ x (by simp [hx])]

/-- The proxy-prefix match on a path of the shape
`/node/<host>/<digits>/<rest>`: the match consumes exactly the prefix up to
and including the slash after the digits, never touching `rest`. -/
theorem nodeMatch_segments (host ds rest : List Char)
    (hh : host ≠ []) (hhs : ∀ c ∈ host, c ≠ '/') (hd : ds ≠ [])
    (hds : ∀ c ∈ ds, isDig c = true) :
    nodeMatch ("/node/".data ++ host ++ '/' :: (ds ++ '/' :: rest))
      = some ("/node/".data ++ host ++ '/' :: (ds ++ ['/'])) := by
  show nodeTail "/node/".data (host ++ '/' :: (ds ++ '/' :: rest)) = _
  unfold nodeTail
  have h1 : (host ++ '/' :: (ds ++ '/' :: rest)).takeWhile (· != '/') = host := by
    apply takeWhile_app
    · intro x hx
      simpa [bne_iff_ne] using hhs x hx
    · simp
  have hhe : host.isEmpty = false := by
    cases host with
    | nil => exact absurd rfl hh
    | cons a t => rfl
  have h2 : (ds ++ '/' :: rest).takeWhile isDig = ds := by
    apply takeWhile_app
    · exact hds
    · rfl
  have hde : ds.isEmpty = false := by
    cases ds with
    | nil => exact absurd rfl hd
    | cons a t => rfl
  simp only [h1, hhe, h2, hde, Bool.false_eq_true, if_false, List.drop_left]

/-- `inferBasePath` always produces a string ending in `/`. -/
theorem inferBasePath_lastIsSlash (p : String) : lastIsSlash (inferBasePath p) = true := by
  unfold inferBasePath
  cases hm : nodeMatch p.data with
  | none => rfl
  | some m =>
    dsimp only
    by_cases hL : m.getLast? = some '/'
    · rw [if_pos hL]
      simp [lastIsSlash, hL]
    · rw [if_neg hL]
      simp [lastIsSlash, List.getLast?_concat]

/-- Appending a slash-terminated string keeps the final slash. -/
theorem lastIsSlash_append_full (a b : String) (hb : lastIsSlash b = true) :
    lastIsSlash (a ++ b) = true := by
  simp only [lastIsSlash, decide_eq_true_eq] at *
  rw [show (a ++ b).data = a.data ++ b.data from rfl]
  rw [List.getLast?_append_of_ne_nil]
  · exact hb
  · intro hnil
    rw [hnil] at hb
    cases hb

/-- Claim C6: the auto-inferred proxy prefix.  Concretely
`/node/lc05/42801/jobs ↦ /node/lc05/42801/` (also for the router's variant);
in general the anchored match consumes exactly `/node/<host>/<digits>/` and
never the trailing job identifier or asset path; the result always ends in
`/`; and absence of a match degrades to `/`. -/
theorem inferBasePath_spec :
    inferBasePath "/node/lc05/42801/jobs" = "/node/lc05/42801/"
    ∧ inferOODBase "/node/lc05/42801/jobs" = "/node/lc05/42801/"
    ∧ inferBasePath "/jobs" = "/"
    ∧ (∀ host ds rest : List Char, host ≠ [] → (∀ c ∈ host, c ≠ '/') →
        ds ≠ [] → (∀ c ∈ ds, isDig c = true) →
        inferBasePath ⟨"/node/".data ++ host ++ '/' :: (ds ++ '/' :: rest)⟩
          = ⟨"/node/".data ++ host ++ '/' :: (ds ++ ['/'])⟩)
    ∧ (∀ p : String, nodeMatch p.data = none → inferBasePath p = "/")
    ∧ (∀ p : String, lastIsSlash (inferBasePath p) = true) := by
  refine ⟨rfl, rfl, rfl, ?_, ?_, inferBasePath_lastIsSlash⟩
  · intro host ds rest hh hhs hd hds
    have hL : ("/node/".data ++ host ++ '/' :: (ds ++ ['/'])).getLast? = some '/' := by
      rw [List.getLast?_append_of_ne_nil _ (List.cons_ne_nil _ _)]
      rw [show ('/' :: (ds ++ ['/'])) = ('/' :: ds) ++ ['/'] by rw [List.cons_append]]
      exact List.getLast?_concat _
    unfold inferBasePath
    rw [show (⟨"/node/".data ++ host ++ '/' :: (ds ++ '/' :: rest)⟩ : String).data
          = "/node/".data ++ host ++ '/' :: (ds ++ '/' :: rest) from rfl]
    rw [nodeMatch_segments host ds rest hh hhs hd hds]
    dsimp only
    rw [if_pos hL]
  · intro p h
    unfold inferBasePath
    rw [h]

/-- Witness for `inferBasePath_spec` with host `lc05`, port `42801` and
trailing segment `jobs`. -/
theorem inferBasePath_spec_witness :
    inferBasePath ⟨"/node/".data ++ "lc05".data ++ '/' :: ("42801".data ++ '/' :: "jobs".data)⟩
      = ⟨"/node/".data ++ "lc05".data ++ '/' :: ("42801".data ++ ['/'])⟩
    ∧ inferBasePath "/somewhere/else" = "/" := by
  constructor
  · exact inferBasePath_spec.2.2.2.1 "lc05".data "42801".data "jobs".data
      (by decide) (by decide) (by decide) (by decide)
  · exact inferBasePath_spec.2.2.2.2.1 "/somewhere/else" rfl

/-- Claim C5 (counterexample): the `?base=` query override is not taken
verbatim — `getBaseURL` appends a trailing slash to an override that lacks
one, so `?base=https://x/custom` resolves to `https://x/custom/`. -/
theorem getBaseURL_override_not_verbatim :
    getBaseURL (some "https://x/custom") none none ⟨"https:", "h:1", "/p"⟩ ""
      = "https://x/custom/"
    ∧ "https://x/custom/" ≠ "https://x/custom" := ⟨rfl, by decide⟩

/-- Claim C5 (amended): resolution precedence is query override, then runtime
config, then build-time config, then the auto-inferred proxy base — first
truthy value wins.  The `?ws=` override is returned verbatim; the `?base=`
override wins over every other layer but is normalized to end with `/`
(verbatim exactly when it already ends with `/`); in particular
`?base=https://x/custom/` resolves to itself regardless of the runtime and
build-time configs. -/
theorem url_resolution_precedence :
    (∀ (qb : String) (rb bb : Option String) (loc : Location), qb ≠ "" →
        getBaseURL (some qb) rb bb loc ""
          = (if lastIsSlash qb then qb else qb ++ "/"))
    ∧ (∀ (qw : String) (runW buildW qb rb bb : Option String) (loc : Location)
          (path : String), qw ≠ "" →
        getWsURL (some qw) runW buildW qb rb bb loc path = qw)
    ∧ (∀ (qb : Option String) (r : String) (bb : Option String) (loc : Location),
        truthyStrOpt qb = false → r ≠ "" →
        getBaseURL qb (some r) bb loc "" = (if lastIsSlash r then r else r ++ "/"))
    ∧ (∀ (qb rb : Option String) (b : String) (loc : Location),
        truthyStrOpt qb = false → truthyStrOpt rb = false → b ≠ "" →
        getBaseURL qb rb (some b) loc "" = (if lastIsSlash b then b else b ++ "/"))
    ∧ (∀ (qb rb bb : Option String) (loc : Location),
        truthyStrOpt qb = false → truthyStrOpt rb = false → truthyStrOpt bb = false →
        getBaseURL qb rb bb loc ""
          = loc.protocol ++ "//" ++ loc.host ++ inferBasePath loc.pathname)
    ∧ getBaseURL (some "https://x/custom/") (some "http://rt/") (some "http://bt/")
        ⟨"https:", "h:1", "/p"⟩ "" = "https://x/custom/" := by
  refine ⟨?_, ?_, ?_, ?_, ?_, rfl⟩
  · intro qb rb bb loc hq
    have h1 : truthyStrOpt (some qb) = true := by
      simpa [truthyStrOpt, bne_iff_ne] using hq
    simp [getBaseURL, h1]
  · intro qw runW buildW qb rb bb loc path hq
    have h1 : truthyStrOpt (some qw) = true := by
      simpa [truthyStrOpt, bne_iff_ne] using hq
    simp [getWsURL, h1]
  · intro qb r bb loc hqb hr
    have h1 : truthyStrOpt (some r) = true := by
      simpa [truthyStrOpt, bne_iff_ne] using hr
    simp [getBaseURL, hqb, h1]
  · intro qb rb b loc hqb hrb hb
    have h1 : truthyStrOpt (some b) = true := by
      simpa [truthyStrOpt, bne_iff_ne] using hb
    simp [getBaseURL, hqb, hrb, h1]
  · intro qb rb bb loc hqb hrb hbb
    have hend : lastIsSlash
        (loc.protocol ++ "//" ++ loc.host ++ inferBasePath loc.pathname) = true :=
      lastIsSlash_append_full _ _ (inferBasePath_lastIsSlash loc.pathname)
    simp [getBaseURL, hqb, hrb, hbb, hend]

/-- Witness for `url_resolution_precedence` at concrete overrides and a
concrete inferred location. -/
theorem url_resolution_precedence_witness :
    getBaseURL (some "https://x/custom/") none none ⟨"https:", "h:1", "/p"⟩ ""
      = (if lastIsSlash "https://x/custom/" then "https://x/custom/"
         else "https://x/custom/" ++ "/")
    ∧ getWsURL (some "ws://w/") none none none none none ⟨"https:", "h:1", "/p"⟩ "create_run"
      = "ws://w/"
    ∧ getBaseURL none none none ⟨"https:", "host:42", "/node/lc05/42801/jobs"⟩ ""
      = "https:" ++ "//" ++ "host:42" ++ inferBasePath "/node/lc05/42801/jobs" := by
  refine ⟨?_, ?_, ?_⟩
  · exact url_resolution_precedence.1 "https://x/custom/" none none
      ⟨"https:", "h:1", "/p"⟩ (by decide)
  · exact url_resolution_precedence.2.1 "ws://w/" none none none none none
      ⟨"https:", "h:1", "/p"⟩ "create_run" (by decide)
  · exact url_resolution_precedence.2.2.2.2.1 none none none
      ⟨"https:", "host:42", "/node/lc05/42801/jobs"⟩ rfl rfl rfl
